import Mathlib

/-!
Verification of the RunpodOllama local forwarding proxy and CLI.

The CLI source (`src/runpod_ollama/cli.py`) is embedded directly; the forwarding
proxy module (`runpod_ollama.local_proxy`) is not part of the provided sources,
so its `handle` operation and the per-session state machine are modelled from
the specification (sections 4.2 and the data model of section 3).
-/

namespace RunpodOllama

/-! ## Port selector (embedding of `start_proxy`, src/runpod_ollama/cli.py lines 152-162) -/

/-- Embedding of the port-search loop of `start_proxy`:
`while not is_port_free(local_proxy_port): local_proxy_port += 1`.
The Python `while` loop is rendered with explicit fuel: `none` means the loop
has not yet terminated after `fuel` probe attempts, `some p` means it stopped
at port `p`. -/
def findFreePortFuel : Nat → (Nat → Bool) → Nat → Option Nat
  | 0, _, _ => none
  | Nat.succ fuel, is_free, port =>
    if is_free port then some port else findFreePortFuel fuel is_free (port + 1)

/-- Modelled from the spec: `run_local_proxy` (module `runpod_ollama.local_proxy`,
not among the provided sources) starts the proxy listener on the given port with
the given debug flag; we record the pair, which identifies the port the proxy is
started on. -/
def run_local_proxy (port : Nat) (debug : Option Bool) : Nat × Option Bool :=
  (port, debug)

/-- Embedding of `start_proxy` (src/runpod_ollama/cli.py lines 152-162): the port
search starts at the hardcoded 5000 and increments until `is_free` holds, then the
proxy is started on the found port. The result is `none` when the search loop has
not terminated within `fuel` iterations; the function has no error outcome, matching
the absence of any error branch in the source. -/
def start_proxy (fuel : Nat) (is_free : Nat → Bool) (debug : Option Bool) :
    Option (Nat × Option Bool) :=
  (findFreePortFuel fuel is_free 5000).map (fun p => run_local_proxy p debug)

/-- Termination of the port-search loop: some amount of fuel suffices for the
loop to stop and deliver a port. -/
def searchTerminates (is_free : Nat → Bool) (start : Nat) : Prop :=
  ∃ fuel, (findFreePortFuel fuel is_free start).isSome = true

/-! ## Forwarding proxy (modelled from the spec, sections 3 and 4.2) -/

/-- Modelled from the spec: an HTTP request (inbound or outbound), with method,
path given by its list of segments, headers as an ordered list of name-value
pairs, and body. The `runpod_ollama.local_proxy` module is not among the
provided sources. -/
structure Request where
  method : String
  path : List String
  headers : List (String × String)
  body : String
deriving DecidableEq

/-- Modelled from the spec: an HTTP response with status code, headers and body. -/
structure Response where
  status : Nat
  headers : List (String × String)
  body : String
deriving DecidableEq

/-- Modelled from the spec: the outcome of issuing the outbound request — either
an upstream response (of any status), or a network failure connecting to the
provider (`UpstreamUnreachable`). -/
inductive UpstreamResult where
  | ok (resp : Response)
  | unreachable
deriving DecidableEq

/-- Modelled from the spec: the process-wide configuration, set once at startup
and read-only thereafter — the provider's fixed API root (as path segments),
the credential, and the debug flag. -/
structure Config where
  apiRoot : List String
  credential : String
  debug : Bool
deriving DecidableEq

/-- Look up the first header with the given name. -/
def getHeader (headers : List (String × String)) (name : String) : Option String :=
  (headers.find? (fun h => h.1 == name)).map (fun h => h.2)

/-- Modelled from the spec: steps 2-3 of `handle` — the outbound request keeps
the inbound method and body, remounts `<id>/<rest>` under the provider's API
root, drops the hop-by-hop headers (`Host`, `Content-Length`) and any
caller-supplied authorization header, and attaches the process-wide credential
as a bearer authorization header. -/
def buildOutbound (cfg : Config) (req : Request) (idSeg : String) (rest : List String) :
    Request :=
  { method := req.method
    path := cfg.apiRoot ++ idSeg :: rest
    headers := ("Authorization", "Bearer " ++ cfg.credential) ::
      req.headers.filter
        (fun h => h.1 != "Authorization" && h.1 != "Host" && h.1 != "Content-Length")
    body := req.body }

/-- Modelled from the spec: the HTTP 400 response for a `MalformedRequest`. -/
def malformedResponse : Response :=
  { status := 400, headers := [], body := "MalformedRequest" }

/-- Modelled from the spec: the 502-equivalent response surfaced to the caller
when the provider is unreachable. -/
def badGatewayResponse : Response :=
  { status := 502, headers := [], body := "UpstreamUnreachable" }

/-- Modelled from the spec: `handle(request) -> response` of section 4.2. Parses
the identifier as the first path segment (HTTP 400 and no outbound request when
the path is empty or has no identifier segment), builds the outbound request,
issues it, and relays the upstream response (or a 502-equivalent when the
provider is unreachable). The second component records the outbound requests
issued upstream, so that side effects are visible in the model. -/
def handle (cfg : Config) (upstream : Request → UpstreamResult) (req : Request) :
    Response × List Request :=
  match req.path with
  | [] => (malformedResponse, [])
  | idSeg :: rest =>
    if idSeg = "" then (malformedResponse, [])
    else
      let out := buildOutbound cfg req idSeg rest
      match upstream out with
      | UpstreamResult.ok resp => (resp, [out])
      | UpstreamResult.unreachable => (badGatewayResponse, [out])

/-! ## Relay-session state machine (modelled from the spec, section 4.2) -/

/-- Modelled from the spec: the per-session states. -/
inductive SessionState where
  | received
  | forwarding
  | streamingResponse
  | complete
  | errored
deriving DecidableEq

/-- Modelled from the spec: the allowed transitions of the per-session state
machine — `Received → Forwarding → StreamingResponse → Complete`, with `Errored`
reachable from `Received`, `Forwarding` or `StreamingResponse`; `Errored` and
`Complete` are terminal. -/
def canStep : SessionState → SessionState → Bool
  | SessionState.received, SessionState.forwarding => true
  | SessionState.received, SessionState.errored => true
  | SessionState.forwarding, SessionState.streamingResponse => true
  | SessionState.forwarding, SessionState.errored => true
  | SessionState.streamingResponse, SessionState.complete => true
  | SessionState.streamingResponse, SessionState.errored => true
  | _, _ => false

/-- Position of a state along the forward direction of the session state
machine; the two terminal states share the final position. -/
def stateRank : SessionState → Nat
  | SessionState.received => 0
  | SessionState.forwarding => 1
  | SessionState.streamingResponse => 2
  | SessionState.complete => 3
  | SessionState.errored => 3

/-- Modelled from the spec: the sequence of states one Relay Session passes
through when `handle` processes a request — malformed input errors from
`Received`; an issued request that gets a response streams it and completes;
an unreachable provider errors from `Forwarding`. -/
def sessionTrace (cfg : Config) (upstream : Request → UpstreamResult) (req : Request) :
    List SessionState :=
  match req.path with
  | [] => [SessionState.received, SessionState.errored]
  | idSeg :: rest =>
    if idSeg = "" then [SessionState.received, SessionState.errored]
    else
      match upstream (buildOutbound cfg req idSeg rest) with
      | UpstreamResult.ok _ =>
        [SessionState.received, SessionState.forwarding,
          SessionState.streamingResponse, SessionState.complete]
      | UpstreamResult.unreachable =>
        [SessionState.received, SessionState.forwarding, SessionState.errored]

/-! ## CLI provisioning commands (embedding of src/runpod_ollama/cli.py) -/

/-- Embedding of a template object: the code reads only its `id` field
(`template["id"]`, cli.py line 95). -/
structure Template where
  id : String
deriving DecidableEq

/-- Embedding of an endpoint object as returned by the remote API. -/
structure Endpoint where
  id : String
deriving DecidableEq

/-- The arguments `create_model` passes to `create_endpoint`
(cli.py lines 93-98). -/
structure EndpointCall where
  name : String
  template_id : String
  workers_max : Nat
  idle_timeout : Nat
deriving DecidableEq

/-- Embedding of the Python errors that can escape `create_model`: the
`assert template is not None` on cli.py line 92. -/
inductive CliError where
  | assertionError
deriving DecidableEq

/-- Embedding of `create_template` (src/runpod_ollama/cli.py lines 24-42): calls
the remote API; on success prints and returns the response; on an exception
prints the error and falls through, returning `none` (Python `None`). The remote
`runpod.create_template` call is abstracted as a function returning `Except`,
an exception being `Except.error`. -/
def create_template (api : String → Nat → Except String Template) (model : String)
    (disk_size : Nat) : Option Template :=
  match api model disk_size with
  | Except.ok t => some t
  | Except.error _ => none

/-- Embedding of `create_endpoint` (src/runpod_ollama/cli.py lines 51-80): calls
the remote API with the given arguments; on an exception prints the error and
returns `none`. -/
def create_endpoint (api : EndpointCall → Except String Endpoint) (call : EndpointCall) :
    Option Endpoint :=
  match api call with
  | Except.ok e => some e
  | Except.error _ => none

/-- Embedding of `create_model` (src/runpod_ollama/cli.py lines 83-99): creates a
template, asserts the result is not `None` (an `AssertionError` escapes
otherwise), then creates an endpoint named after the model with the template's
id. The second component records the `create_endpoint` invocations made. -/
def create_model (tApi : String → Nat → Except String Template)
    (eApi : EndpointCall → Except String Endpoint) (model : String)
    (disk_size workers_max idle_timeout : Nat) :
    Except CliError (Option Endpoint) × List EndpointCall :=
  match create_template tApi model disk_size with
  | none => (Except.error CliError.assertionError, [])
  | some t =>
    let call : EndpointCall :=
      { name := model, template_id := t.id, workers_max := workers_max,
        idle_timeout := idle_timeout }
    (Except.ok (create_endpoint eApi call), [call])

/-! ## Concrete instances used by the witnesses -/

/-- Example configuration, as in the spec's example scenario. -/
def cfgEx : Config := { apiRoot := ["api"], credential := "tok-abc", debug := false }

/-- Example upstream that always answers 200. -/
def upEx : Request → UpstreamResult :=
  fun _ => UpstreamResult.ok { status := 200, headers := [], body := "ok" }

/-- Example inbound request carrying a forged authorization header. -/
def reqEx : Request :=
  { method := "GET", path := ["ep123", "v1", "models"],
    headers := [("Authorization", "Bearer fake"), ("Host", "localhost")], body := "" }

/-- Example inbound request with an empty path. -/
def reqBad : Request := { method := "GET", path := [], headers := [], body := "" }

/-- Example non-success upstream response. -/
def respErr : Response := { status := 500, headers := [], body := "oops" }

/-- Example upstream that always answers with the non-success response. -/
def upErr : Request → UpstreamResult := fun _ => UpstreamResult.ok respErr

/-- Example remote template API that always raises. -/
def tApiFail : String → Nat → Except String Template := fun _ _ => Except.error "boom"

/-- Example remote endpoint API that always succeeds. -/
def eApiOk : EndpointCall → Except String Endpoint :=
  fun call => Except.ok { id := call.name }

/-! ## Helper lemmas about the port search -/

/-- The port-search loop stops exactly at `start + k` when that port is free and
every earlier probed port is busy. -/
theorem findFreePortFuel_add (is_free : Nat → Bool) :
    ∀ (k start : Nat), is_free (start + k) = true →
      (∀ j, j < k → is_free (start + j) = false) →
      findFreePortFuel (k + 1) is_free start = some (start + k) := by
  intro k
  induction k with
  | zero =>
    intro start h _
    simp only [Nat.add_zero] at h
    simp [findFreePortFuel, h]
  | succ k ih =>
    intro start h hlt
    have h0 : is_free start = false := by
      have := hlt 0 (Nat.succ_pos k)
      simpa using this
    have hstep : findFreePortFuel (k + 1 + 1) is_free start
        = findFreePortFuel (k + 1) is_free (start + 1) := by
      simp [findFreePortFuel, h0]
    rw [hstep]
    have h' : is_free (start + 1 + k) = true := by
      have he : start + 1 + k = start + (k + 1) := by omega
      rw [he]; exact h
    have hlt' : ∀ j, j < k → is_free (start + 1 + j) = false := by
      intro j hj
      have he : start + 1 + j = start + (j + 1) := by omega
      rw [he]
      exact hlt (j + 1) (by omega)
    rw [ih (start + 1) h' hlt']
    congr 1
    omega

/-- The port-search loop terminates as soon as any probed port is free, least
or not. -/
theorem findFreePortFuel_isSome (is_free : Nat → Bool) :
    ∀ (k start : Nat), is_free (start + k) = true →
      (findFreePortFuel (k + 1) is_free start).isSome = true := by
  intro k
  induction k with
  | zero =>
    intro start h
    simp only [Nat.add_zero] at h
    simp [findFreePortFuel, h]
  | succ k ih =>
    intro start h
    cases h0 : is_free start with
    | true => simp [findFreePortFuel, h0]
    | false =>
      have hstep : findFreePortFuel (k + 1 + 1) is_free start
          = findFreePortFuel (k + 1) is_free (start + 1) := by
        simp [findFreePortFuel, h0]
      rw [hstep]
      apply ih
      have he : start + 1 + k = start + (k + 1) := by omega
      rw [he]; exact h

/-- With a predicate under which no port is ever free, the search loop never
stops, whatever the fuel. -/
theorem findFreePortFuel_none :
    ∀ (fuel start : Nat), findFreePortFuel fuel (fun _ => false) start = none := by
  intro fuel
  induction fuel with
  | zero => intro start; rfl
  | succ n ih => intro start; simp [findFreePortFuel, ih]

/-- The outbound request always carries the configured credential as its
authorization header. -/
theorem getHeader_buildOutbound (cfg : Config) (req : Request) (idSeg : String)
    (rest : List String) :
    getHeader (buildOutbound cfg req idSeg rest).headers "Authorization"
      = some ("Bearer " ++ cfg.credential) := by
  simp [getHeader, buildOutbound]

/-- For a valid path the relay issues exactly the one outbound request built by
`buildOutbound`, whatever the upstream outcome. -/
theorem handle_outbound_eq (cfg : Config) (upstream : Request → UpstreamResult)
    (req : Request) (idSeg : String) (rest : List String)
    (hp : req.path = idSeg :: rest) (hid : idSeg ≠ "") :
    (handle cfg upstream req).2 = [buildOutbound cfg req idSeg rest] := by
  cases hup : upstream (buildOutbound cfg req idSeg rest) with
  | ok resp => simp [handle, hp, hid, hup]
  | unreachable => simp [handle, hp, hid, hup]

/-! ## Claim theorems -/

/-- C1: for every inbound request relayed by `handle`, the authorization header
of the outbound request equals the process-configured credential as a bearer
token, regardless of any authorization header value the caller supplied. -/
theorem C1_credential_substitution (cfg : Config) (upstream : Request → UpstreamResult)
    (req out : Request) (hmem : out ∈ (handle cfg upstream req).2) :
    getHeader out.headers "Authorization" = some ("Bearer " ++ cfg.credential) := by
  rcases hp : req.path with _ | ⟨idSeg, rest⟩
  · simp [handle, hp] at hmem
  · by_cases hid : idSeg = ""
    · simp [handle, hp, hid] at hmem
    · cases hup : upstream (buildOutbound cfg req idSeg rest) with
      | ok resp =>
        simp [handle, hp, hid, hup] at hmem
        rw [hmem]
        exact getHeader_buildOutbound cfg req idSeg rest
      | unreachable =>
        simp [handle, hp, hid, hup] at hmem
        rw [hmem]
        exact getHeader_buildOutbound cfg req idSeg rest

/-- Witness for C1 at the example configuration and the forged-header request. -/
theorem C1_credential_substitution_witness :
    getHeader (buildOutbound cfgEx reqEx "ep123" ["v1", "models"]).headers "Authorization"
      = some ("Bearer " ++ cfgEx.credential) :=
  C1_credential_substitution cfgEx upEx reqEx
    (buildOutbound cfgEx reqEx "ep123" ["v1", "models"]) (by decide)

/-- C2: for every inbound request whose path is empty or has no identifier
segment, `handle` returns an HTTP 400 response and issues no outbound request
at all. -/
theorem C2_malformed_rejected (cfg : Config) (upstream : Request → UpstreamResult)
    (req : Request) (hmal : req.path = [] ∨ req.path.head? = some "") :
    (handle cfg upstream req).1.status = 400 ∧ (handle cfg upstream req).2 = [] := by
  rcases hp : req.path with _ | ⟨idSeg, rest⟩
  · simp [handle, hp, malformedResponse]
  · rcases hmal with h | h
    · rw [hp] at h; cases h
    · rw [hp] at h
      simp only [List.head?_cons, Option.some.injEq] at h
      simp [handle, hp, h, malformedResponse]

/-- Witness for C2 at the empty-path request. -/
theorem C2_malformed_rejected_witness :
    (handle cfgEx upEx reqBad).1.status = 400 ∧ (handle cfgEx upEx reqBad).2 = [] :=
  C2_malformed_rejected cfgEx upEx reqBad (Or.inl rfl)

/-- C3: for every valid inbound request with path `<id> :: <rest>`, the outbound
request built by `handle` has path equal to the provider's API root joined with
`<id>/<rest>`, and its method and body are exactly the inbound ones. -/
theorem C3_path_rewrite (cfg : Config) (upstream : Request → UpstreamResult)
    (req : Request) (idSeg : String) (rest : List String)
    (hp : req.path = idSeg :: rest) (hid : idSeg ≠ "") :
    (handle cfg upstream req).2 = [buildOutbound cfg req idSeg rest] ∧
    (buildOutbound cfg req idSeg rest).path = cfg.apiRoot ++ idSeg :: rest ∧
    (buildOutbound cfg req idSeg rest).method = req.method ∧
    (buildOutbound cfg req idSeg rest).body = req.body := by
  exact ⟨handle_outbound_eq cfg upstream req idSeg rest hp hid, rfl, rfl, rfl⟩

/-- Witness for C3 at the example request. -/
theorem C3_path_rewrite_witness :
    (handle cfgEx upEx reqEx).2 = [buildOutbound cfgEx reqEx "ep123" ["v1", "models"]] ∧
    (buildOutbound cfgEx reqEx "ep123" ["v1", "models"]).path
      = cfgEx.apiRoot ++ "ep123" :: ["v1", "models"] ∧
    (buildOutbound cfgEx reqEx "ep123" ["v1", "models"]).method = reqEx.method ∧
    (buildOutbound cfgEx reqEx "ep123" ["v1", "models"]).body = reqEx.body :=
  C3_path_rewrite cfgEx upEx reqEx "ep123" ["v1", "models"] rfl (by decide)

/-- C4: for every valid inbound request exactly one outbound request is issued
(no retried upstream call, whatever the upstream outcome), the outbound path is
a deterministic function of the inbound path, and no request ever issues more
than one outbound request. -/
theorem C4_single_outbound (cfg : Config) (upstream : Request → UpstreamResult)
    (req : Request) (idSeg : String) (rest : List String)
    (hp : req.path = idSeg :: rest) (hid : idSeg ≠ "") :
    (handle cfg upstream req).2.length = 1 ∧
    (∀ (upstream2 : Request → UpstreamResult) (req2 : Request), req2.path = req.path →
      (handle cfg upstream2 req2).2.map Request.path
        = (handle cfg upstream req).2.map Request.path) ∧
    (∀ r : Request, (handle cfg upstream r).2.length ≤ 1) := by
  refine ⟨?_, ?_, ?_⟩
  · rw [handle_outbound_eq cfg upstream req idSeg rest hp hid]
    rfl
  · intro upstream2 req2 hp2
    rw [hp] at hp2
    rw [handle_outbound_eq cfg upstream2 req2 idSeg rest hp2 hid,
      handle_outbound_eq cfg upstream req idSeg rest hp hid]
    simp [buildOutbound]
  · intro r
    rcases hr : r.path with _ | ⟨i, rs⟩
    · simp [handle, hr]
    · by_cases hi : i = ""
      · simp [handle, hr, hi]
      · cases hup : upstream (buildOutbound cfg r i rs) with
        | ok resp => simp [handle, hr, hi, hup]
        | unreachable => simp [handle, hr, hi, hup]

/-- Witness for C4 at the example request: exactly one outbound request. -/
theorem C4_single_outbound_witness : (handle cfgEx upEx reqEx).2.length = 1 :=
  (C4_single_outbound cfgEx upEx reqEx "ep123" ["v1", "models"] rfl (by decide)).1

/-- C5: an upstream response with a non-success (non-2xx/3xx) status is relayed
to the caller unchanged, and an unreachable upstream is surfaced as a 502. -/
theorem C5_upstream_passthrough (cfg : Config) (upstream : Request → UpstreamResult)
    (req : Request) (idSeg : String) (rest : List String) (resp : Response)
    (hp : req.path = idSeg :: rest) (hid : idSeg ≠ "") :
    (upstream (buildOutbound cfg req idSeg rest) = UpstreamResult.ok resp →
      (resp.status < 200 ∨ 400 ≤ resp.status) →
      (handle cfg upstream req).1 = resp) ∧
    (upstream (buildOutbound cfg req idSeg rest) = UpstreamResult.unreachable →
      (handle cfg upstream req).1.status = 502) := by
  constructor
  · intro hup _
    simp [handle, hp, hid, hup]
  · intro hup
    simp [handle, hp, hid, hup, badGatewayResponse]

/-- Witness for C5: a 500 upstream response is handed back verbatim. -/
theorem C5_upstream_passthrough_witness : (handle cfgEx upErr reqEx).1 = respErr :=
  (C5_upstream_passthrough cfgEx upErr reqEx "ep123" ["v1", "models"] respErr rfl
    (by decide)).1 rfl (by decide)

/-- C8: every Relay Session trace follows the allowed transitions, every allowed
transition strictly advances the state rank (no session moves back to an earlier
state), and neither terminal state `Complete` nor `Errored` has an outgoing
transition. -/
theorem C8_forward_only (cfg : Config) (upstream : Request → UpstreamResult)
    (req : Request) :
    List.Chain' (fun a b => canStep a b = true) (sessionTrace cfg upstream req) ∧
    (∀ a b : SessionState, canStep a b = true → stateRank a < stateRank b) ∧
    (∀ b : SessionState, canStep SessionState.complete b = false ∧
      canStep SessionState.errored b = false) := by
  refine ⟨?_, ?_, ?_⟩
  · rcases hp : req.path with _ | ⟨idSeg, rest⟩
    · have ht : sessionTrace cfg upstream req
          = [SessionState.received, SessionState.errored] := by
        simp [sessionTrace, hp]
      rw [ht]
      exact List.chain'_cons.mpr ⟨rfl, List.chain'_singleton _⟩
    · by_cases hid : idSeg = ""
      · have ht : sessionTrace cfg upstream req
            = [SessionState.received, SessionState.errored] := by
          simp [sessionTrace, hp, hid]
        rw [ht]
        exact List.chain'_cons.mpr ⟨rfl, List.chain'_singleton _⟩
      · cases hup : upstream (buildOutbound cfg req idSeg rest) with
        | ok resp =>
          have ht : sessionTrace cfg upstream req
              = [SessionState.received, SessionState.forwarding,
                 SessionState.streamingResponse, SessionState.complete] := by
            simp [sessionTrace, hp, hid, hup]
          rw [ht]
          exact List.chain'_cons.mpr ⟨rfl, List.chain'_cons.mpr ⟨rfl,
            List.chain'_cons.mpr ⟨rfl, List.chain'_singleton _⟩⟩⟩
        | unreachable =>
          have ht : sessionTrace cfg upstream req
              = [SessionState.received, SessionState.forwarding,
                 SessionState.errored] := by
            simp [sessionTrace, hp, hid, hup]
          rw [ht]
          exact List.chain'_cons.mpr ⟨rfl,
            List.chain'_cons.mpr ⟨rfl, List.chain'_singleton _⟩⟩
  · intro a b h
    cases a <;> cases b <;> simp [canStep] at h ⊢ <;> simp [stateRank]
  · intro b
    cases b <;> exact ⟨rfl, rfl⟩

/-- Witness for C8: a concrete allowed transition strictly advances the rank. -/
theorem C8_forward_only_witness :
    stateRank SessionState.received < stateRank SessionState.forwarding :=
  (C8_forward_only cfgEx upEx reqEx).2.1 SessionState.received SessionState.forwarding
    (by decide)

/-- C6 (counterexample): with a free-port predicate under which no port is ever
free, the port search at preferred port 5000 never terminates — there is no
bounded cutoff and no `PortExhausted` error outcome in the code. -/
theorem C6_counterexample : ¬ searchTerminates (fun _ => false) 5000 := by
  rintro ⟨fuel, h⟩
  rw [findFreePortFuel_none fuel 5000] at h
  simp at h

/-- C6 (amended): the port search terminates whenever some port at or above the
start is free; with a predicate under which no port is free it loops forever
(see the counterexample), and no `PortExhausted`-style error exists. -/
theorem C6_terminates_of_free (is_free : Nat → Bool) (start p : Nat)
    (hle : start ≤ p) (hfree : is_free p = true) :
    searchTerminates is_free start := by
  refine ⟨p - start + 1, ?_⟩
  have h : is_free (start + (p - start)) = true := by
    have he : start + (p - start) = p := by omega
    rw [he]; exact hfree
  exact findFreePortFuel_isSome is_free (p - start) start h

/-- Witness for the amended C6: the search from 5000 terminates when 5001 is
free. -/
theorem C6_terminates_of_free_witness : searchTerminates (fun n => n == 5001) 5000 :=
  C6_terminates_of_free (fun n => n == 5001) 5000 5001 (by decide) (by decide)

/-- C7: whenever `p` is the first port at or above the start on which binding
succeeds, the port search returns exactly `p`, and (for the hardcoded start
5000 of `start_proxy`) the proxy is started on exactly that port. -/
theorem C7_first_free_port (is_free : Nat → Bool) (start p : Nat) (debug : Option Bool)
    (hle : start ≤ p) (hfree : is_free p = true)
    (hleast : ∀ q, start ≤ q → q < p → is_free q = false) :
    findFreePortFuel (p - start + 1) is_free start = some p ∧
    (start = 5000 → start_proxy (p - start + 1) is_free debug
      = some (run_local_proxy p debug)) := by
  have hmain : findFreePortFuel (p - start + 1) is_free start = some p := by
    have h1 : is_free (start + (p - start)) = true := by
      have he : start + (p - start) = p := by omega
      rw [he]; exact hfree
    have h2 : ∀ j, j < p - start → is_free (start + j) = false := by
      intro j hj
      exact hleast (start + j) (by omega) (by omega)
    rw [findFreePortFuel_add is_free (p - start) start h1 h2]
    congr 1
    omega
  refine ⟨hmain, ?_⟩
  intro h5
  subst h5
  simp [start_proxy, hmain]

/-- Witness for C7: with only port 5001 free, the search from 5000 returns
5001. -/
theorem C7_first_free_port_witness :
    findFreePortFuel 2 (fun n => n == 5001) 5000 = some 5001 :=
  (C7_first_free_port (fun n => n == 5001) 5000 5001 none (by decide) (by decide)
    (fun q h1 h2 => by
      have hq : q = 5000 := by omega
      rw [hq]
      decide)).1

/-- C9: `start_proxy` passes to `run_local_proxy` the smallest port at or above
the hardcoded 5000 satisfying the free-port predicate with no range check, and
for the predicate that frees only ports from 70000 on, the selected port 70000
lies outside the valid TCP range 1-65535. -/
theorem C9_no_upper_bound (is_free : Nat → Bool) (p : Nat) (debug : Option Bool)
    (hle : 5000 ≤ p) (hfree : is_free p = true)
    (hleast : ∀ q, 5000 ≤ q → q < p → is_free q = false) :
    start_proxy (p - 5000 + 1) is_free debug = some (run_local_proxy p debug) ∧
    start_proxy 65001 (fun n => 69999 < n) none = some (run_local_proxy 70000 none) ∧
    65535 < 70000 := by
  refine ⟨?_, ?_, by omega⟩
  · have h1 : is_free (5000 + (p - 5000)) = true := by
      have he : 5000 + (p - 5000) = p := by omega
      rw [he]; exact hfree
    have h2 : ∀ j, j < p - 5000 → is_free (5000 + j) = false := by
      intro j hj
      exact hleast (5000 + j) (by omega) (by omega)
    have hmain := findFreePortFuel_add is_free (p - 5000) 5000 h1 h2
    have he2 : 5000 + (p - 5000) = p := by omega
    rw [he2] at hmain
    simp [start_proxy, hmain]
  · have h1 : (fun n => decide (69999 < n)) (5000 + 65000) = true := by decide
    have h2 : ∀ j, j < 65000 → (fun n => decide (69999 < n)) (5000 + j) = false := by
      intro j hj
      simp only [decide_eq_false_iff_not, Nat.not_lt]
      omega
    have hmain := findFreePortFuel_add (fun n => decide (69999 < n)) 65000 5000 h1 h2
    simp only [start_proxy]
    rw [hmain]
    rfl

/-- Witness for C9: with every port free, the proxy starts on 5000 itself. -/
theorem C9_no_upper_bound_witness :
    start_proxy 1 (fun _ => true) none = some (run_local_proxy 5000 none) :=
  (C9_no_upper_bound (fun _ => true) 5000 none (by decide) rfl
    (fun q h1 h2 => absurd h2 (by omega))).1

/-- C10: whenever the remote template call raises (so `create_template` returns
`None`), `create_model` ends in an `AssertionError` and calls `create_endpoint`
on nothing; and every `create_endpoint` invocation it makes carries the id of a
successfully created template. -/
theorem C10_assert_guards_endpoint (tApi : String → Nat → Except String Template)
    (eApi : EndpointCall → Except String Endpoint) (model : String)
    (disk_size workers_max idle_timeout : Nat) :
    (∀ e : String, tApi model disk_size = Except.error e →
      create_model tApi eApi model disk_size workers_max idle_timeout
        = (Except.error CliError.assertionError, [])) ∧
    (∀ call ∈ (create_model tApi eApi model disk_size workers_max idle_timeout).2,
      ∃ t : Template, tApi model disk_size = Except.ok t ∧ call.template_id = t.id) := by
  constructor
  · intro e he
    simp [create_model, create_template, he]
  · intro call hmem
    cases ht : tApi model disk_size with
    | error e => simp [create_model, create_template, ht] at hmem
    | ok t =>
      refine ⟨t, rfl, ?_⟩
      simp [create_model, create_template, ht] at hmem
      rw [hmem]

/-- Witness for C10: a raising template API yields the assertion error and no
endpoint call. -/
theorem C10_assert_guards_endpoint_witness :
    create_model tApiFail eApiOk "llama2" 10 1 60
      = (Except.error CliError.assertionError, []) :=
  (C10_assert_guards_endpoint tApiFail eApiOk "llama2" 10 1 60).1 "boom" rfl

end RunpodOllama
